import Mathlib

/-!
Verification of the `pyactionnetwork` Action Network API client
(`pyactionnetwork/api.py`) against its natural-language specification.

The Python module is shallowly embedded: JSON documents become an inductive
`Json` type, the HTTP layer becomes an oracle `Net : Request → Json` mapping
each issued request to the parsed JSON body of its response, the mutable
object state (`self.headers`, `self.config`, `self.base_url`) becomes an
explicit `ApiState` threaded through every method, and Python runtime errors
(KeyError, UnboundLocalError, AttributeError, TypeError) become an `Err`
type returned through `Except`.  Each method also returns the list of
requests it issued and the list of strings it printed, so that claims about
retries and logging are expressible.
-/

namespace PyActionNetwork

/-- Parsed JSON values, as produced by `response.json()` in the Python code.
Objects keep their key order, as Python dicts do. -/
inductive Json where
  | null : Json
  | bool : Bool → Json
  | num : Int → Json
  | str : String → Json
  | arr : List Json → Json
  | obj : List (String × Json) → Json
deriving Repr

/-- Lookup of a key in a JSON object (`d[k]` / `d.get(k)` on a dict);
`none` on a missing key or a non-object. -/
def Json.lookup : Json → String → Option Json
  | .obj kvs, k => kvs.lookup k
  | _, _ => none

/-- Python `d.get(k, default)`. -/
def Json.getD (j : Json) (k : String) (d : Json) : Json :=
  (j.lookup k).getD d

/-- Python truthiness of a parsed JSON value (`if x:`). -/
def Json.truthy : Json → Bool
  | .null => false
  | .bool b => b
  | .num n => n != 0
  | .str s => s != ""
  | .arr l => !l.isEmpty
  | .obj l => !l.isEmpty

/-- Keys of a JSON object in order; `[]` for non-objects. -/
def Json.keys : Json → List String
  | .obj kvs => kvs.map Prod.fst
  | _ => []

/-- Python truthiness of an optional string argument (`if resource:`):
`None` and the empty string are falsy. -/
def truthyS : Option String → Bool
  | none => false
  | some s => s != ""

/-- Python `str()` of an optional-string value interpolated by
`"...{0}...".format(x)` or an f-string: `None` renders as `"None"`. -/
def pyStrOpt : Option String → String
  | none => "None"
  | some s => s

/-- Python `str()` of a parsed JSON value, as used when a value is
interpolated into a URL.  Every value that reaches an interpolation in the
claims below is a string (an `href` or the base-URL literal), for which
`str` is the identity; the renderings of containers are placeholders and no
result proved here depends on them. -/
def pyStr : Json → String
  | .null => "None"
  | .bool b => cond b "True" "False"
  | .num n => toString n
  | .str s => s
  | .arr _ => "<list>"
  | .obj _ => "<dict>"

/-- Optional string to JSON, as `json.dumps` serialises a payload field
holding either a string or Python `None`. -/
def jsonOfOptStr : Option String → Json
  | none => Json.null
  | some s => Json.str s

/-- Python runtime errors the module can raise. -/
inductive Err where
  | keyError : String → Err
  | unknownResource : String → Err
  | unboundLocal : String → Err
  | attributeError : String → Err
  | typeError : String → Err
  | nonTermination : Err
deriving Repr, DecidableEq

/-- Hex digit for percent-encoding (uppercase, as `urllib.parse.quote`). -/
def hexDigit (n : Nat) : Char :=
  if n < 10 then Char.ofNat (48 + n) else Char.ofNat (55 + n)

/-- UTF-8 encoding of one code point, as a list of byte values. -/
def utf8Bytes (n : Nat) : List Nat :=
  if n < 128 then [n]
  else if n < 2048 then [192 + n / 64, 128 + n % 64]
  else if n < 65536 then [224 + n / 4096, 128 + n / 64 % 64, 128 + n % 64]
  else [240 + n / 262144, 128 + n / 4096 % 64, 128 + n / 64 % 64, 128 + n % 64]

/-- Percent-encoding of one byte value. -/
def percentByte (b : Nat) : String :=
  String.mk ['%', hexDigit (b / 16 % 16), hexDigit (b % 16)]

/-- Encoding of one character under `urllib.parse.quote` with the default
`safe='/'`: ASCII alphanumerics and `_.-~/` pass through, everything else is
percent-encoded bytewise in UTF-8. -/
def quoteChar (c : Char) : String :=
  if c.isAlphanum ∧ c.toNat < 128 then String.singleton c
  else if c = '_' ∨ c = '.' ∨ c = '-' ∨ c = '~' ∨ c = '/' then String.singleton c
  else String.join ((utf8Bytes c.toNat).map percentByte)

/-- Model of `urllib.parse.quote` (default `safe='/'`). -/
def quote (s : String) : String :=
  String.join (s.data.map quoteChar)

/-- A single quote character, interpolated by `get_person` around the search
value. -/
def singleQuote : String :=
  String.singleton (Char.ofNat 39)

/-- One HTTP request as issued through `requests.request` /
`requests.get`: method, URL, query params, optional JSON body. -/
structure Request where
  method : String
  url : String
  params : List (String × String)
  body : Option Json
deriving Repr

/-- The network oracle: the parsed JSON body the server answers to each
request.  Requests are synchronous and deterministic within one run. -/
def Net : Type :=
  Request → Json

/-- The mutable state of an `ActionNetworkApi` object: `self.headers`,
`self.config` and `self.base_url`.  `base_url` is kept as a JSON value
because `__init__` stores whatever `config.get('links', {}).get('self', …)`
returns. -/
structure ApiState where
  headers : List (String × String)
  config : Json
  base_url : Json
deriving Repr

/-- A `GET` request with no params and no body, as issued by
`self.client('GET', url)`. -/
def getReq (url : String) : Request :=
  ⟨"GET", url, [], none⟩

/-- Embedding of `ActionNetworkApi.resource_to_url`.  Checks whether
`resource` is a key of `self.config.get('_links', {})`; if so returns that
entry's `href` (a missing `href` there raises an uncaught KeyError).
Otherwise evaluates `self.config['_links']['osdi:<resource>']['href']`
inside a `try`, turning any KeyError into the distinct
`KeyError("Unknown Resource %s", resource)`.  Reads `self.config` only;
returns the state unchanged. -/
def resource_to_url (s : ApiState) (resource : String) :
    Except Err Json × ApiState :=
  (match (s.config.getD "_links" (Json.obj [])).lookup resource with
   | some entry =>
     (match entry.lookup "href" with
      | some h => .ok h
      | none => .error (.keyError "href"))
   | none =>
     (match (s.config.lookup "_links").bind
         (fun l => (l.lookup ("osdi:" ++ resource)).bind
           (fun e => e.lookup "href")) with
      | some h => .ok h
      | none => .error (.unknownResource resource)),
   s)

/-- Embedding of `ActionNetworkApi.client`: issues one request with the
stored headers and returns the parsed JSON body.  The `ratelimit` and
`backoff` decorators only affect timing, never the value returned on
success, so they do not appear in the functional model.  Returns the
response, the singleton request log, and the unchanged state. -/
def client (s : ApiState) (net : Net) (method url : String)
    (params : List (String × String)) (body : Option Json) :
    Json × List Request × ApiState :=
  (net ⟨method, url, params, body⟩, [⟨method, url, params, body⟩], s)

/-- Embedding of `ActionNetworkApi.refresh_config`: one `requests.get` to
the hardcoded API root with the stored headers; the parsed body replaces
`self.config`. -/
def refresh_config (s : ApiState) (net : Net) : ApiState × List Request :=
  ({ s with config := net ⟨"GET", "https://actionnetwork.org/api/v2/", [], none⟩ },
   [⟨"GET", "https://actionnetwork.org/api/v2/", [], none⟩])

/-- The base-URL computation on line 17 of `api.py`:
`self.config.get('links', {}).get('self', 'https://actionnetwork.org/api/v2/')`.
Note the unprefixed key `'links'`, not `'_links'`. -/
def init_base_url (config : Json) : Json :=
  (config.getD "links" (Json.obj [])).getD "self"
    (Json.str "https://actionnetwork.org/api/v2/")

/-- Embedding of `ActionNetworkApi.__init__`: stores the token header,
fetches the config, computes `base_url`, then prints `self.config['motd']`
(a missing `motd` key raises KeyError after the state is built).  Returns
the constructed state, the requests issued, and the printed strings. -/
def init (net : Net) (api_key : String) :
    Except Err (ApiState × List Request × List String) :=
  let s0 : ApiState := ⟨[("OSDI-API-Token", api_key)], Json.null, Json.null⟩
  let fetched := refresh_config s0 net
  let s2 : ApiState := { fetched.1 with base_url := init_base_url fetched.1.config }
  match s2.config.lookup "motd" with
  | some motd => .ok (s2, fetched.2, [pyStr motd])
  | none => .error (.keyError "motd")

/-- Embedding of `ActionNetworkApi.get_resource`: resolves the name and
issues one `GET` with the given params. -/
def get_resource (s : ApiState) (net : Net) (resource : String)
    (params : List (String × String)) :
    Except Err Json × List Request × ApiState :=
  match (resource_to_url s resource).1 with
  | .error e => (.error e, [], s)
  | .ok u =>
    let out := client s net "GET" (pyStr u) params none
    (.ok out.1, out.2.1, out.2.2)

/-- Embedding of `ActionNetworkApi.get_resource_list`.  Arguments mirror
the Python signature (`resource=None, url=None, filter=None`, accumulator
`resources`); `log` and `printed` accumulate the requests issued and the
strings printed.  `fuel` bounds the recursion depth: the Python original
recurses unboundedly on `next` links, so a run that would recurse deeper
than `fuel` pages is reported as `Err.nonTermination` (never hit when the
server's `next` chain is finite and `fuel` is at least its length).

Faithful details: the local `url_no_filter` is only assigned inside the
`if resource and not url:` block, so on any other path an error response
triggers an UnboundLocalError at the retry call (after the error is
printed); the recursive call passes `resource` and the next URL but not
`filter`; the embedded items are read at key `f'osdi:\x7bresource\x7d'`,
which renders a `None` resource as the literal key `osdi:None`. -/
def get_resource_list (net : Net) (s : ApiState) :
    Nat → Option String → Option String → Option String →
    List Json → List Request → List String →
    Except Err (List Json) × List Request × List String × ApiState
  | 0, _, _, _, _, log, printed => (.error .nonTermination, log, printed, s)
  | fuel + 1, resource, url0, filt, resources0, log, printed =>
    let start : Except Err (Option String × String) :=
      if truthyS resource && !truthyS url0 then
        match (resource_to_url s (resource.getD "")).1 with
        | .error e => .error e
        | .ok href =>
          let unf := pyStr href
          if truthyS filt then
            .ok (some unf, unf ++ "?filter=" ++ quote (filt.getD ""))
          else
            .ok (some unf, unf)
      else
        match url0 with
        | some u => .ok (none, u)
        | none => .error (.typeError "url")
    match start with
    | .error e => (.error e, log, printed, s)
    | .ok (url_no_filter, url) =>
      let data := net (getReq url)
      let log1 := log ++ [getReq url]
      let afterRetry : Except Err (Json × List Request × List String) :=
        if (data.getD "error" Json.null).truthy then
          let printed1 := printed ++ [pyStr (data.getD "error" Json.null)]
          match url_no_filter with
          | some unf => .ok (net (getReq unf), log1 ++ [getReq unf], printed1)
          | none => .error (.unboundLocal "url_no_filter")
        else
          .ok (data, log1, printed)
      match afterRetry with
      | .error e =>
        (.error e, log1, printed ++ [pyStr (data.getD "error" Json.null)], s)
      | .ok (data2, log2, printed2) =>
        match data2.lookup "_embedded" with
        | none => (.error (.keyError "_embedded"), log2, printed2, s)
        | some emb =>
          match emb.lookup ("osdi:" ++ pyStrOpt resource) with
          | none =>
            (.error (.keyError ("osdi:" ++ pyStrOpt resource)), log2, printed2, s)
          | some (Json.arr items) =>
            let resources1 := resources0 ++ items
            if ((data2.getD "_links" (Json.obj [])).getD "next" Json.null).truthy then
              match ((data2.getD "_links" (Json.obj [])).getD "next" Json.null).lookup "href" with
              | some (Json.str nu) =>
                get_resource_list net s fuel resource (some nu) none resources1 log2 printed2
              | some other =>
                get_resource_list net s fuel resource (some (pyStr other)) none resources1 log2 printed2
              | none =>
                get_resource_list net s fuel resource none none resources1 log2 printed2
            else
              (.ok resources1, log2, printed2, s)
          | some _ => (.error (.typeError "not iterable"), log2, printed2, s)

/-- Embedding of `ActionNetworkApi.get_person`: by id when `person_id` is
truthy, otherwise by `filter=<field> eq '<value>'` with the value
URL-quoted (`quote(None)` in Python raises a TypeError). -/
def get_person (s : ApiState) (net : Net) (person_id : Option String)
    (search_by : String) (search_string : Option String) :
    Except Err Json × List Request × ApiState :=
  let urlE : Except Err String :=
    if truthyS person_id then
      .ok (pyStr s.base_url ++ "people/" ++ pyStrOpt person_id)
    else
      match search_string with
      | some ss =>
        .ok (pyStr s.base_url ++ "people/?filter=" ++ search_by ++ " eq " ++
          singleQuote ++ quote ss ++ singleQuote)
      | none => .error (.typeError "quote expects a string")
  match urlE with
  | .error e => (.error e, [], s)
  | .ok url =>
    let out := client s net "GET" url [] none
    (.ok out.1, out.2.1, out.2.2)

/-- An argument the Python code accepts as either a string or a list of
strings (`address`, `tags`). -/
inductive StrOrList where
  | str : String → StrOrList
  | list : List String → StrOrList
deriving Repr

/-- Python `list(x)`: a list is copied, a string is split into its
individual characters (`list("vip") == ["v", "i", "p"]`). -/
def pyList : StrOrList → List String
  | .str s => s.data.map String.singleton
  | .list l => l

/-- The person payload built by `create_person`: person fields nested under
`'person'`, with `'add_tags'` alongside at top level. -/
def create_person_payload (email : Option String)
    (given_name family_name : String) (address : StrOrList)
    (city state country postal_code : String) (tags : StrOrList)
    (custom_fields : List (String × Json)) : Json :=
  Json.obj [
    ("person", Json.obj [
      ("family_name", Json.str family_name),
      ("given_name", Json.str given_name),
      ("postal_addresses", Json.arr [Json.obj [
        ("address_lines", Json.arr ((pyList address).map Json.str)),
        ("locality", Json.str city),
        ("region", Json.str state),
        ("country", Json.str country),
        ("postal_code", Json.str postal_code)]]),
      ("email_addresses", Json.arr [Json.obj [
        ("address", jsonOfOptStr email)]]),
      ("custom_fields", Json.obj custom_fields)]),
    ("add_tags", Json.arr ((pyList tags).map Json.str))]

/-- Embedding of `ActionNetworkApi.create_person`: POSTs the payload to
`{base_url}people/` and returns the parsed response. -/
def create_person (s : ApiState) (net : Net) (email : Option String)
    (given_name family_name : String) (address : StrOrList)
    (city state country postal_code : String) (tags : StrOrList)
    (custom_fields : List (String × Json)) :
    Json × List Request × ApiState :=
  client s net "POST" (pyStr s.base_url ++ "people/") []
    (some (create_person_payload email given_name family_name address
      city state country postal_code tags custom_fields))

/-- The person payload built by `update_person`: the same person fields as
`create_person` plus `add_tags` and `custom_fields`, but laid flat at top
level with no `'person'` wrapper, and with `None` defaults instead of empty
strings. -/
def update_person_payload (email given_name family_name : Option String)
    (address : StrOrList) (city state country postal_code : Option String)
    (tags : StrOrList) (custom_fields : List (String × Json)) : Json :=
  Json.obj [
    ("family_name", jsonOfOptStr family_name),
    ("given_name", jsonOfOptStr given_name),
    ("postal_addresses", Json.arr [Json.obj [
      ("address_lines", Json.arr ((pyList address).map Json.str)),
      ("locality", jsonOfOptStr city),
      ("region", jsonOfOptStr state),
      ("country", jsonOfOptStr country),
      ("postal_code", jsonOfOptStr postal_code)]]),
    ("email_addresses", Json.arr [Json.obj [
      ("address", jsonOfOptStr email)]]),
    ("add_tags", Json.arr ((pyList tags).map Json.str)),
    ("custom_fields", Json.obj custom_fields)]

/-- Model of calling `.json()` on a value already parsed from JSON: parsed
Python dicts (and lists, strings, numbers, `None`) have no `json`
attribute, so the call raises AttributeError for every such value. -/
def call_json_method (_ : Json) : Except Err Json :=
  .error (.attributeError "json")

/-- Embedding of `ActionNetworkApi.update_person`: PUTs the flat payload to
`{base_url}people/{person_id}` and then evaluates `resp.json()` on the
already-parsed response dict. -/
def update_person (s : ApiState) (net : Net) (person_id : Option String)
    (email given_name family_name : Option String) (address : StrOrList)
    (city state country postal_code : Option String) (tags : StrOrList)
    (custom_fields : List (String × Json)) :
    Except Err Json × List Request × ApiState :=
  let out := client s net "PUT" (pyStr s.base_url ++ "people/" ++ pyStrOpt person_id) []
    (some (update_person_payload email given_name family_name address
      city state country postal_code tags custom_fields))
  (call_json_method out.1, out.2.1, out.2.2)

/-- Embedding of `ActionNetworkApi.search`: the body is `pass`, so it
issues no request and returns `None`. -/
def search (s : ApiState) (_ : Net) (_ _operator _term : String) :
    Json × List Request × ApiState :=
  (Json.null, [], s)

/-! ## Theorems -/

/-- C2: for every resource name and every config link table,
`resource_to_url` returns the `href` stored under the key equal to the name
when that key is present; otherwise, when the key `osdi:<name>` is present,
it returns that entry's `href`; and when both keys are absent it fails with
the distinct "Unknown Resource" KeyError rather than silently returning
null.  The state (in particular the config) is returned unchanged, so the
lookup has no side effects on it. -/
theorem resource_to_url_spec (s : ApiState) (name : String) :
    (∀ entry h,
      (s.config.getD "_links" (Json.obj [])).lookup name = some entry →
      entry.lookup "href" = some h →
      (resource_to_url s name).1 = .ok h)
    ∧ (∀ entry h,
      (s.config.getD "_links" (Json.obj [])).lookup name = none →
      (s.config.getD "_links" (Json.obj [])).lookup ("osdi:" ++ name) = some entry →
      entry.lookup "href" = some h →
      (resource_to_url s name).1 = .ok h)
    ∧ ((s.config.getD "_links" (Json.obj [])).lookup name = none →
      (s.config.getD "_links" (Json.obj [])).lookup ("osdi:" ++ name) = none →
      (resource_to_url s name).1 = .error (.unknownResource name))
    ∧ (resource_to_url s name).2 = s := by
  refine ⟨?_, ?_, ?_, rfl⟩
  · intro entry h he hh
    simp only [resource_to_url, he, hh]
  · intro entry h he hosdi hh
    cases hc : s.config.lookup "_links" with
    | none =>
      rw [Json.getD, hc] at hosdi
      simp [Json.lookup] at hosdi
    | some L =>
      have hL : s.config.getD "_links" (Json.obj []) = L := by
        rw [Json.getD, hc]
        rfl
      rw [hL] at he hosdi
      simp only [resource_to_url, hL, he]
      simp [hc, hosdi, hh]
  · intro h1 h2
    cases hc : s.config.lookup "_links" with
    | none =>
      simp only [resource_to_url, Json.getD, hc, Option.getD_none,
        Option.bind_none] at h1 ⊢
      simp [h1]
    | some L =>
      have hL : s.config.getD "_links" (Json.obj []) = L := by
        rw [Json.getD, hc]
        rfl
      rw [hL] at h1 h2
      simp only [resource_to_url, hL, h1]
      simp [hc, h2]

/-- Witness for C2: on a concrete config whose link table holds `people`
only under the `osdi:` prefix, the name still resolves, and an absent name
fails with the "Unknown Resource" error. -/
theorem resource_to_url_spec_witness :
    (resource_to_url
      ⟨[], Json.obj [("_links", Json.obj [("osdi:people",
        Json.obj [("href", Json.str "https://an.example/people")])])], Json.null⟩
      "people").1 = .ok (Json.str "https://an.example/people")
    ∧ (resource_to_url
      ⟨[], Json.obj [("_links", Json.obj [("osdi:people",
        Json.obj [("href", Json.str "https://an.example/people")])])], Json.null⟩
      "events").1 = .error (.unknownResource "events") := by
  constructor
  · exact (resource_to_url_spec _ "people").2.1
      (Json.obj [("href", Json.str "https://an.example/people")])
      (Json.str "https://an.example/people") rfl rfl rfl
  · exact (resource_to_url_spec _ "events").2.2.1 rfl rfl

/-- C5: creating a person with `email="a@example.com"`, `given_name="A"`
and every other argument defaulted issues exactly one POST to
`{base_url}people/` whose payload's person object has
`email_addresses == [{"address": "a@example.com"}]` and
`given_name == "A"`, and the payload carries the fixed field set: the
person object holds `family_name`, `given_name`, one `postal_addresses`
entry built from address lines, locality, region, country and postal code,
`email_addresses` and `custom_fields`, with `add_tags` alongside. -/
theorem create_person_request (s : ApiState) (net : Net) :
    ∃ p person,
      (create_person s net (some "a@example.com") "A" "" (.list []) "" "" "" ""
        (.list []) []).2.1
        = [⟨"POST", pyStr s.base_url ++ "people/", [], some p⟩]
      ∧ p.lookup "person" = some person
      ∧ person.lookup "email_addresses"
          = some (Json.arr [Json.obj [("address", Json.str "a@example.com")]])
      ∧ person.lookup "given_name" = some (Json.str "A")
      ∧ p.keys = ["person", "add_tags"]
      ∧ person.keys = ["family_name", "given_name", "postal_addresses",
          "email_addresses", "custom_fields"]
      ∧ person.lookup "postal_addresses" = some (Json.arr [Json.obj [
          ("address_lines", Json.arr []), ("locality", Json.str ""),
          ("region", Json.str ""), ("country", Json.str ""),
          ("postal_code", Json.str "")]])
      ∧ p.lookup "add_tags" = some (Json.arr []) :=
  ⟨_, _, rfl, rfl, rfl, rfl, rfl, rfl, rfl, rfl⟩

/-- C9: passing `tags` (or `address`) as a string rather than a list makes
the built payload's `add_tags` (respectively `address_lines`) the list of
the string's individual characters — `tags="vip"` yields
`add_tags == ["v", "i", "p"]` — in both `create_person` and
`update_person`, because `list()` of a Python string splits it. -/
theorem string_args_split_into_characters (tags address : String)
    (email : Option String) (gn fn city st ctry pc : String)
    (uemail ugn ufn ucity ust uctry upc : Option String)
    (cf : List (String × Json)) :
    (create_person_payload email gn fn (.str address) city st ctry pc
        (.str tags) cf).lookup "add_tags"
      = some (Json.arr (tags.data.map (fun c => Json.str (String.singleton c))))
    ∧ ((create_person_payload email gn fn (.str address) city st ctry pc
        (.str tags) cf).lookup "person").bind (fun p => p.lookup "postal_addresses")
      = some (Json.arr [Json.obj [
          ("address_lines",
            Json.arr (address.data.map (fun c => Json.str (String.singleton c)))),
          ("locality", Json.str city), ("region", Json.str st),
          ("country", Json.str ctry), ("postal_code", Json.str pc)]])
    ∧ (update_person_payload uemail ugn ufn (.str address) ucity ust uctry upc
        (.str tags) cf).lookup "add_tags"
      = some (Json.arr (tags.data.map (fun c => Json.str (String.singleton c))))
    ∧ (update_person_payload uemail ugn ufn (.str address) ucity ust uctry upc
        (.str tags) cf).lookup "postal_addresses"
      = some (Json.arr [Json.obj [
          ("address_lines",
            Json.arr (address.data.map (fun c => Json.str (String.singleton c)))),
          ("locality", jsonOfOptStr ucity), ("region", jsonOfOptStr ust),
          ("country", jsonOfOptStr uctry), ("postal_code", jsonOfOptStr upc)]])
    ∧ (create_person_payload none "" "" (.list []) "" "" "" "" (.str "vip")
        []).lookup "add_tags"
      = some (Json.arr [Json.str "v", Json.str "i", Json.str "p"]) := by
  refine ⟨?_, ?_, ?_, ?_, ?_⟩ <;>
    simp [create_person_payload, update_person_payload, Json.lookup,
      List.lookup, pyList, List.map_map, Function.comp, String.singleton]
  refine ⟨?_, ?_, ?_⟩ <;> rfl

/-- Counterexample for C6: the update payload does not have the same shape
as the create payload.  With every field defaulted, the update body has no
`person` wrapper (its `family_name` sits at top level), while the create
body nests the person fields under `person` and has no top-level
`family_name`. -/
theorem update_person_shape_counterexample :
    (update_person_payload none none none (.list []) none none none none
        (.list []) []).lookup "person" = none
    ∧ (update_person_payload none none none (.list []) none none none none
        (.list []) []).lookup "family_name" = some Json.null
    ∧ ((create_person_payload none "" "" (.list []) "" "" "" "" (.list [])
        []).lookup "person").isSome = true
    ∧ (create_person_payload none "" "" (.list []) "" "" "" "" (.list [])
        []).lookup "family_name" = none :=
  ⟨rfl, rfl, rfl, rfl⟩

/-- C6 (amended): every `update_person` call issues one PUT to
`{base_url}people/{person_id}` whose payload carries the same person fields
as create (`family_name`, `given_name`, `postal_addresses`,
`email_addresses`) plus `add_tags` and `custom_fields`, but laid flat at
top level without create's `person` wrapper; the update path then calls
`.json()` on the already-parsed dict returned by the client, which fails at
runtime with an AttributeError instead of returning the parsed response. -/
theorem update_person_spec (s : ApiState) (net : Net) (pid : Option String)
    (email gn fn : Option String) (addr : StrOrList)
    (city st ctry pc : Option String) (tags : StrOrList)
    (cf : List (String × Json)) :
    update_person s net pid email gn fn addr city st ctry pc tags cf
      = (.error (.attributeError "json"),
         [⟨"PUT", pyStr s.base_url ++ "people/" ++ pyStrOpt pid, [],
           some (update_person_payload email gn fn addr city st ctry pc tags cf)⟩],
         s)
    ∧ (update_person_payload email gn fn addr city st ctry pc tags cf).keys
      = ["family_name", "given_name", "postal_addresses", "email_addresses",
         "add_tags", "custom_fields"]
    ∧ (create_person_payload none "" "" (.list []) "" "" "" "" (.list []) []).keys
      = ["person", "add_tags"] :=
  ⟨rfl, rfl, rfl⟩

/-- C10: for every root document that has no top-level `links` key (its
link table lives under `_links`, as the data model describes),
construction sets `base_url` to the hardcoded literal
`https://actionnetwork.org/api/v2/`: the lookup
`self.config.get('links', {}).get('self', …)` never finds the document's
actual self link, so `base_url` is independent of the fetched config. -/
theorem init_base_url_hardcoded (net : Net) (api_key : String)
    (config motd : Json)
    (hconf : net ⟨"GET", "https://actionnetwork.org/api/v2/", [], none⟩ = config)
    (_hlinks : (config.lookup "_links").isSome = true)
    (hnolinks : config.lookup "links" = none)
    (hmotd : config.lookup "motd" = some motd) :
    ∃ st log printedMotd,
      init net api_key = .ok (st, log, printedMotd)
      ∧ st.base_url = Json.str "https://actionnetwork.org/api/v2/"
      ∧ st.config = config := by
  have hbase : init_base_url config = Json.str "https://actionnetwork.org/api/v2/" := by
    simp only [init_base_url, Json.getD, hnolinks, Option.getD_none]
    rfl
  refine ⟨⟨[("OSDI-API-Token", api_key)], config, init_base_url config⟩,
    [⟨"GET", "https://actionnetwork.org/api/v2/", [], none⟩],
    [pyStr motd], ?_, hbase, rfl⟩
  simp only [init, refresh_config, hconf, hmotd]

/-- Witness for C10: a concrete root document with an `_links` table, a
`motd` and no `links` key yields the hardcoded base URL. -/
theorem init_base_url_hardcoded_witness :
    ∃ st log printedMotd,
      init (fun _ => Json.obj [("_links", Json.obj []), ("motd", Json.str "hi")])
          "secret-token"
        = .ok (st, log, printedMotd)
      ∧ st.base_url = Json.str "https://actionnetwork.org/api/v2/"
      ∧ st.config = Json.obj [("_links", Json.obj []), ("motd", Json.str "hi")] :=
  init_base_url_hardcoded _ "secret-token" _ (Json.str "hi") rfl rfl rfl rfl

/-- Helper for the frame property: the recursive collection fetcher
returns the state it was given, at every fuel and argument. -/
lemma get_resource_list_state (net : Net) (s : ApiState) :
    ∀ (fuel : Nat) (resource url0 filt : Option String) (acc : List Json)
      (log : List Request) (printed : List String),
      (get_resource_list net s fuel resource url0 filt acc log printed).2.2.2 = s := by
  intro fuel
  induction fuel with
  | zero => intro resource url0 filt acc log printed; rfl
  | succ n ih =>
    intro resource url0 filt acc log printed
    simp only [get_resource_list]
    repeat' split
    all_goals first | rfl | exact ih _ _ _ _ _ _

/-- C7: every operation other than construction and `refresh_config` —
`resource_to_url`, `client`, `get_resource`, `get_resource_list`,
`get_person`, `create_person`, `update_person`, `search` — returns the
client state (config object, header dict and base URL) unchanged: the
config is only read, never replaced, outside `__init__` and
`refresh_config`. -/
theorem operations_leave_state_unchanged (s : ApiState) (net : Net) :
    (∀ resource, (resource_to_url s resource).2 = s)
    ∧ (∀ method url params body, (client s net method url params body).2.2 = s)
    ∧ (∀ resource params, (get_resource s net resource params).2.2 = s)
    ∧ (∀ fuel resource url0 filt acc log printed,
        (get_resource_list net s fuel resource url0 filt acc log printed).2.2.2 = s)
    ∧ (∀ pid search_by search_string,
        (get_person s net pid search_by search_string).2.2 = s)
    ∧ (∀ email gn fn addr city st ctry pc tags cf,
        (create_person s net email gn fn addr city st ctry pc tags cf).2.2 = s)
    ∧ (∀ pid email gn fn addr city st ctry pc tags cf,
        (update_person s net pid email gn fn addr city st ctry pc tags cf).2.2 = s)
    ∧ (∀ a b c, (search s net a b c).2.2 = s) := by
  refine ⟨fun _ => rfl, fun _ _ _ _ => rfl, ?_, get_resource_list_state net s,
    ?_, fun _ _ _ _ _ _ _ _ _ _ => rfl, fun _ _ _ _ _ _ _ _ _ _ _ => rfl,
    fun _ _ _ => rfl⟩
  · intro resource params
    simp only [get_resource]
    split <;> rfl
  · intro pid search_by search_string
    simp only [get_person]
    repeat' split
    all_goals rfl

/-- C8: on a recursive pagination step — a `get_resource_list` call in
which both `resource` and `url` are supplied, as happens when following a
`next` link — whose fetched page contains a truthy `error` key, the
function raises UnboundLocalError for `url_no_filter` (assigned only
inside the `if resource and not url:` block) instead of performing the
log-and-retry recovery; the error is still printed first, but no retry
request is issued. -/
theorem get_resource_list_unbound_local_on_recursive_error
    (s : ApiState) (net : Net) (r u : String) (hr : r ≠ "") (hu : u ≠ "")
    (herr : ((net (getReq u)).getD "error" Json.null).truthy = true)
    (fuel : Nat) (acc : List Json) (log : List Request) (printed : List String) :
    get_resource_list net s (fuel + 1) (some r) (some u) none acc log printed
      = (.error (.unboundLocal "url_no_filter"), log ++ [getReq u],
         printed ++ [pyStr ((net (getReq u)).getD "error" Json.null)], s) := by
  have htr : truthyS (some r) = true := by simp [truthyS, hr]
  have htu : truthyS (some u) = true := by simp [truthyS, hu]
  simp only [get_resource_list, htr, htu]
  simp [herr]

/-- Witness for C8: a concrete recursive step (resource `people`, page URL
`u2`) whose page reports an error ends in the UnboundLocalError, with the
error printed and no retry request logged. -/
theorem get_resource_list_unbound_local_witness :
    get_resource_list
      (fun _ => Json.obj [("error", Json.str "boom")])
      ⟨[], Json.obj [], Json.null⟩ 5 (some "people") (some "u2") none [] [] []
      = (.error (.unboundLocal "url_no_filter"), [getReq "u2"],
         ["boom"], ⟨[], Json.obj [], Json.null⟩) := by
  have h := get_resource_list_unbound_local_on_recursive_error
    ⟨[], Json.obj [], Json.null⟩ (fun _ => Json.obj [("error", Json.str "boom")])
    "people" "u2" (by decide) (by decide) rfl 4 [] [] []
  simpa using h

/-- C4: a filtered fetch `get_resource_list(resource, filter=f)` whose
first response contains a truthy `error` key prints the error and issues
exactly one retry, directed at the unfiltered resource URL, and no further
error recovery is attempted on that retry's response: here the retry's
response itself carries an `error` key, yet the request log holds exactly
the filtered request and one unfiltered retry, and the retry's embedded
items are returned as-is. -/
theorem get_resource_list_filtered_error_retries_once
    (s : ApiState) (net : Net) (r f u fu : String) (hr : r ≠ "") (hf : f ≠ "")
    (hurl : (resource_to_url s r).1 = .ok (Json.str u))
    (hfu : u ++ "?filter=" ++ quote f = fu)
    (errval : Json)
    (herrval : (net (getReq fu)).getD "error" Json.null = errval)
    (herr : errval.truthy = true)
    (items : List Json)
    (hretry : net (getReq u) = Json.obj [("error", Json.str "second error"),
      ("_embedded", Json.obj [("osdi:" ++ r, Json.arr items)])])
    (fuel : Nat) :
    get_resource_list net s (fuel + 1) (some r) none (some f) [] [] []
      = (.ok items, [getReq fu, getReq u], [pyStr errval], s) := by
  subst hfu
  have htr : truthyS (some r) = true := by simp [truthyS, hr]
  have htf : truthyS (some f) = true := by simp [truthyS, hf]
  simp only [get_resource_list, htr, htf]
  simp only [truthyS, Option.getD_some, hurl]
  simp only [pyStr]
  simp [herrval, herr]
  simp [hretry, pyStrOpt, Json.getD, Json.lookup, List.lookup, Json.truthy]

/-- Witness for C4: a concrete filtered fetch of `people` whose filtered
page reports an error retries once against the unfiltered URL and returns
that page's items even though it reports an error too. -/
theorem get_resource_list_filtered_error_retries_once_witness :
    get_resource_list
      (fun req => if req.url = "https://an.example/people" then
          Json.obj [("error", Json.str "second error"),
            ("_embedded", Json.obj [("osdi:people", Json.arr [Json.str "x"])])]
        else Json.obj [("error", Json.str "bad filter")])
      ⟨[], Json.obj [("_links", Json.obj [("people",
        Json.obj [("href", Json.str "https://an.example/people")])])], Json.null⟩
      (6 + 1) (some "people") none (some "a eq b") [] [] []
      = (.ok [Json.str "x"],
         [getReq "https://an.example/people?filter=a%20eq%20b",
          getReq "https://an.example/people"],
         ["bad filter"],
         ⟨[], Json.obj [("_links", Json.obj [("people",
           Json.obj [("href", Json.str "https://an.example/people")])])],
           Json.null⟩) :=
  get_resource_list_filtered_error_retries_once
    ⟨[], Json.obj [("_links", Json.obj [("people",
      Json.obj [("href", Json.str "https://an.example/people")])])], Json.null⟩
    (fun req => if req.url = "https://an.example/people" then
        Json.obj [("error", Json.str "second error"),
          ("_embedded", Json.obj [("osdi:people", Json.arr [Json.str "x"])])]
      else Json.obj [("error", Json.str "bad filter")])
    "people" "a eq b" "https://an.example/people"
    "https://an.example/people?filter=a%20eq%20b"
    (by decide) (by decide) rfl (by exact rfl) (Json.str "bad filter")
    (by exact rfl) rfl [Json.str "x"] rfl 6

/-- One paginated response page: the items for resource `r` embedded under
`osdi:<r>`, and, unless it is the last page, a `next` link to the following
page's URL.  This is the response shape the spec's pagination property
quantifies over (no `error` key). -/
def mkPage (r : String) (items : List Json) (next : Option String) : Json :=
  Json.obj ([("_embedded", Json.obj [("osdi:" ++ r, Json.arr items)])] ++
    (match next with
     | some u => [("_links", Json.obj [("next", Json.obj [("href", Json.str u)])])]
     | none => []))

/-- A finite pagination chain for resource `r`: each entry pairs a page URL
(nonempty, as served in `href` links) with that page's item list; the
server answers each URL with the corresponding `mkPage` whose `next` link
points at the following entry's URL, and the last page has no `next`. -/
def isChain (net : Net) (r : String) : List (String × List Json) → Prop
  | [] => True
  | (u, items) :: rest =>
      u ≠ "" ∧ net (getReq u) = mkPage r items (rest.head?.map Prod.fst)
      ∧ isChain net r rest

lemma mkPage_no_error (r : String) (items : List Json) (next : Option String) :
    ((mkPage r items next).getD "error" Json.null).truthy = false := by
  cases next <;> rfl

lemma mkPage_embedded (r : String) (items : List Json) (next : Option String) :
    (mkPage r items next).lookup "_embedded"
      = some (Json.obj [("osdi:" ++ r, Json.arr items)]) := by
  cases next <;> rfl

lemma mkPage_next_none (r : String) (items : List Json) :
    ((mkPage r items none).getD "_links" (Json.obj [])).getD "next" Json.null
      = Json.null := rfl

lemma mkPage_next_some (r : String) (items : List Json) (u2 : String) :
    ((mkPage r items (some u2)).getD "_links" (Json.obj [])).getD "next" Json.null
      = Json.obj [("href", Json.str u2)] := rfl

/-- One unfolding of the pagination loop at a URL argument serving an
error-free page: the page's items are appended to the accumulator and the
loop either stops (no `next`) or recurses on the `next` URL. -/
lemma get_resource_list_step (s : ApiState) (net : Net) (r u : String)
    (hr : r ≠ "") (hu : u ≠ "") (items : List Json) (next : Option String)
    (hnet : net (getReq u) = mkPage r items next)
    (fuel : Nat) (acc : List Json) (log : List Request) (printed : List String) :
    get_resource_list net s (fuel + 1) (some r) (some u) none acc log printed
      = match next with
        | none => (.ok (acc ++ items), log ++ [getReq u], printed, s)
        | some u2 => get_resource_list net s fuel (some r) (some u2) none
            (acc ++ items) (log ++ [getReq u]) printed := by
  have htr : truthyS (some r) = true := by simp [truthyS, hr]
  have htu : truthyS (some u) = true := by simp [truthyS, hu]
  simp only [get_resource_list, htr, htu]
  cases next with
  | none =>
    simp [hnet, mkPage, pyStrOpt, Json.getD, Json.lookup, List.lookup,
      Json.truthy]
  | some u2 =>
    simp [hnet, mkPage, pyStrOpt, Json.getD, Json.lookup, List.lookup,
      Json.truthy]

/-- The pagination loop over a whole chain returns the accumulator followed
by the concatenation of the chain's item lists, in order. -/
lemma get_resource_list_chain (s : ApiState) (net : Net) (r : String)
    (hr : r ≠ "") :
    ∀ (rest : List (String × List Json)) (u : String) (items : List Json),
      isChain net r ((u, items) :: rest) →
      ∀ (fuel : Nat), rest.length < fuel →
      ∀ (acc : List Json) (log : List Request) (printed : List String),
      (get_resource_list net s fuel (some r) (some u) none acc log printed).1
        = .ok (acc ++ (((u, items) :: rest).map Prod.snd).flatten) := by
  intro rest
  induction rest with
  | nil =>
    intro u items hch fuel hf acc log printed
    obtain ⟨hu, hnet, -⟩ := hch
    obtain ⟨f, rfl⟩ : ∃ f, fuel = f + 1 := ⟨fuel - 1, by omega⟩
    rw [get_resource_list_step s net r u hr hu items none (by simpa using hnet)
      f acc log printed]
    simp
  | cons p rest2 ih =>
    obtain ⟨u2, items2⟩ := p
    intro u items hch fuel hf acc log printed
    obtain ⟨hu, hnet, hch2⟩ := hch
    obtain ⟨f, rfl⟩ : ∃ f, fuel = f + 1 := ⟨fuel - 1, by omega⟩
    rw [get_resource_list_step s net r u hr hu items (some u2)
      (by simpa using hnet) f acc log printed]
    rw [ih u2 items2 hch2 f (by simpa using hf) (acc ++ items) _ printed]
    simp

/-- C1: for every finite chain of paginated responses in which the last
page has no `next` link and each page embeds its items under `osdi:<r>`,
`get_resource_list(resource=r)` terminates (any fuel beyond the chain
length suffices) and returns the concatenation of the pages' item lists in
server-provided order — page order, then in-page order, no deduplication —
so its length is the sum of the per-page item counts. -/
theorem get_resource_list_concatenates_pages (s : ApiState) (net : Net)
    (r : String) (hr : r ≠ "")
    (u0 : String) (items0 : List Json) (rest : List (String × List Json))
    (hch : isChain net r ((u0, items0) :: rest))
    (hurl : (resource_to_url s r).1 = .ok (Json.str u0))
    (fuel : Nat) (hf : rest.length + 1 < fuel) :
    (get_resource_list net s fuel (some r) none none [] [] []).1
      = .ok ((((u0, items0) :: rest).map Prod.snd).flatten)
    ∧ ((((u0, items0) :: rest).map Prod.snd).flatten).length
      = (((u0, items0) :: rest).map (fun p => p.2.length)).sum := by
  constructor
  · obtain ⟨hu0, hnet0, hch2⟩ := hch
    obtain ⟨f, rfl⟩ : ∃ f, fuel = f + 1 := ⟨fuel - 1, by omega⟩
    have htr : truthyS (some r) = true := by simp [truthyS, hr]
    have hstep :
        get_resource_list net s (f + 1) (some r) none none [] [] []
          = match rest.head?.map Prod.fst with
            | none => (.ok items0, [getReq u0], [], s)
            | some u2 => get_resource_list net s f (some r) (some u2) none
                items0 [getReq u0] [] := by
      simp only [get_resource_list, htr]
      simp only [truthyS, Option.getD_some, hurl]
      simp only [pyStr]
      cases hnx : rest.head?.map Prod.fst with
      | none =>
        rw [hnx] at hnet0
        simp [hnet0, mkPage, pyStrOpt, Json.getD, Json.lookup, List.lookup,
          Json.truthy]
      | some u2 =>
        rw [hnx] at hnet0
        simp [hnet0, mkPage, pyStrOpt, Json.getD, Json.lookup, List.lookup,
          Json.truthy]
    cases rest with
    | nil =>
      rw [hstep]
      simp
    | cons p rest2 =>
      obtain ⟨u2, items2⟩ := p
      rw [hstep]
      have hrec := get_resource_list_chain s net r hr rest2 u2 items2 hch2 f
        (by simp at hf; omega) items0 [getReq u0] []
      simp only [List.head?_cons, Option.map_some']
      rw [hrec]
      simp
  · simp [List.length_flatten, List.map_map, Function.comp_def]

/-- Witness for C1: a concrete two-page chain for `people` (items `p1, p2`
on the first page, `p3` on the second) is fetched completely and in order. -/
theorem get_resource_list_concatenates_pages_witness :
    (get_resource_list
      (fun req => if req.url = "u1"
          then mkPage "people" [Json.str "p1", Json.str "p2"] (some "u2")
        else if req.url = "u2" then mkPage "people" [Json.str "p3"] none
        else Json.null)
      ⟨[], Json.obj [("_links", Json.obj [("people",
        Json.obj [("href", Json.str "u1")])])], Json.null⟩
      3 (some "people") none none [] [] []).1
      = .ok [Json.str "p1", Json.str "p2", Json.str "p3"] := by
  have h := get_resource_list_concatenates_pages
    ⟨[], Json.obj [("_links", Json.obj [("people",
      Json.obj [("href", Json.str "u1")])])], Json.null⟩
    (fun req => if req.url = "u1"
        then mkPage "people" [Json.str "p1", Json.str "p2"] (some "u2")
      else if req.url = "u2" then mkPage "people" [Json.str "p3"] none
      else Json.null)
    "people" (by decide) "u1" [Json.str "p1", Json.str "p2"]
    [("u2", [Json.str "p3"])]
    ⟨by decide, by exact rfl, by decide, by exact rfl, trivial⟩
    rfl 3 (by decide)
  exact h.1.trans (by exact rfl)

end PyActionNetwork
